import Mathlib

/-!
Verification of the architecture-graph generator templates
(`autokeras/nn/generator.py`): a shallow embedding of the five network
generators (plain CNN, MLP, ResNet-style, DenseNet-style, MobileNetV2-style)
together with the architecture-graph collaborator they drive, and proofs of
the specified properties.
-/

/-- Operator descriptor: one layer family with its numeric parameters
(the closed tagged-variant rendering of the stub-layer hierarchy). -/
inductive StubLayer where
  | relu : StubLayer
  | batchNorm (numFeatures : Nat) : StubLayer
  | conv (inCh outCh kernel stride padding groups : Nat) : StubLayer
  | pooling (kernel stride padding : Nat) : StubLayer
  | avgPooling (kernel stride padding : Nat) : StubLayer
  | globalAvgPooling : StubLayer
  | dropout (rate : Rat) : StubLayer
  | dense (inUnits outUnits : Nat) : StubLayer
  | add : StubLayer
  | concatenate : StubLayer
  deriving DecidableEq, Repr

/-- One record of the graph's layer list: the operator descriptor, the
predecessor node ids it was appended with, and the fresh output node id. -/
structure LayerRec where
  layer : StubLayer
  inputIds : List Nat
  outputId : Nat
  deriving DecidableEq, Repr

/-- A fixed default layer record, used as the out-of-range fallback when
indexing a layer list. -/
def dummyRec : LayerRec := ⟨StubLayer.relu, [], 0⟩

/-- Spatial dimension arithmetic for convolution/pooling:
`(d + 2*padding - kernel) / stride + 1` (integer floor division). -/
def spatialOut (d kernel stride padding : Nat) : Nat :=
  (d + 2 * padding - kernel) / stride + 1

/-- Modelled from the spec: the Architecture Graph collaborator's
deterministic shape-transformation rules (spec sections 3 and 6; the graph
implementation itself is not part of the covered source). Shapes are
channel-last tuples; activation/normalization/dropout preserve the shape,
convolution and pooling apply `spatialOut` to each spatial dimension,
global average pooling keeps only the channel dimension, dense produces its
output size, elementwise-add takes its first input's shape (the two inputs
are required to be identical), and concatenation sums channel dimensions. -/
def outShape (l : StubLayer) (ins : List (List Nat)) : List Nat :=
  match l, ins with
  | StubLayer.relu, [s] => s
  | StubLayer.batchNorm _, [s] => s
  | StubLayer.dropout _, [s] => s
  | StubLayer.conv _ o k st p _, [s] =>
      s.dropLast.map (fun d => spatialOut d k st p) ++ [o]
  | StubLayer.pooling k st p, [s] =>
      s.dropLast.map (fun d => spatialOut d k st p) ++ [s.getLastD 0]
  | StubLayer.avgPooling k st p, [s] =>
      s.dropLast.map (fun d => spatialOut d k st p) ++ [s.getLastD 0]
  | StubLayer.globalAvgPooling, [s] => [s.getLastD 0]
  | StubLayer.dense _ o, [_] => [o]
  | StubLayer.add, [s, _] => s
  | StubLayer.concatenate, [s, t] =>
      s.dropLast ++ [s.getLastD 0 + t.getLastD 0]
  | _, _ => []

/-- Modelled from the spec: the mutable Architecture Graph collaborator
(spec sections 2, 3 and 6; `autokeras/nn/graph.py` is not part of the covered
source). Node ids are positions in `nodeList`, which stores each node's
shape; `layerList` records every appended operator with its predecessor and
output node ids. -/
structure Graph where
  nodeList : List (List Nat)
  layerList : List LayerRec
  deriving DecidableEq, Repr

/-- Modelled from the spec: `Graph(input_shape, False)` creates the input
node (id 0) carrying the input shape. -/
def Graph.init (inputShape : List Nat) : Graph := ⟨[inputShape], []⟩

/-- Shape lookup by node id (`graph.node_list[id].shape`); out-of-range ids
yield the empty shape. -/
def Graph.shapeOf (g : Graph) (id : Nat) : List Nat := g.nodeList.getD id []

/-- Modelled from the spec: `graph.add_layer(layer, input_node_ids)` appends
a new node whose shape is computed by `outShape` from the operator and the
predecessors' shapes, and returns the extended graph with the new node id. -/
def Graph.add_layer (g : Graph) (l : StubLayer) (ids : List Nat) : Graph × Nat :=
  (⟨g.nodeList ++ [outShape l (ids.map g.shapeOf)],
    g.layerList ++ [⟨l, ids, g.nodeList.length⟩]⟩, g.nodeList.length)

/-- Shape of the graph's final (most recently created) node. -/
def Graph.finalShape (g : Graph) : List Nat := g.nodeList.getLastD []

/-- The most recently appended layer record, if any. -/
def Graph.lastLayer (g : Graph) : Option LayerRec := g.layerList.getLast?

/-- Number of elementwise-add operators in the graph. -/
def Graph.countAdds (g : Graph) : Nat :=
  (g.layerList.filter (fun r => r.layer == StubLayer.add)).length

/-- The failure conditions of the generator templates and of the
dimensional operator resolver; `indexError` is the out-of-range tuple
indexing failure raised when `input_shape[0]` is read on an empty input
shape. -/
inductive GenError where
  | invalidInputRank : GenError
  | widthLengthMismatch : GenError
  | unsupportedRank : GenError
  | indexError : GenError
  deriving DecidableEq, Repr

/-- Modelled from the spec: the Dimensional Operator Resolver
(`get_conv_class` and friends; `autokeras/nn/layers.py` is not part of the
covered source) supports spatial ranks 1, 2 and 3 and fails with
`UnsupportedRank` otherwise (spec sections 2 and 6). -/
def resolveRank (nDim : Int) : Except GenError Unit :=
  if nDim = 1 ∨ nDim = 2 ∨ nDim = 3 then Except.ok () else Except.error GenError.unsupportedRank

namespace Constant

/-- Modelled from the spec: default depth in the reference configuration
(`Constant.MODEL_LEN`; `autokeras/constant.py` is not part of the covered
source). -/
def MODEL_LEN : Nat := 2

/-- Modelled from the spec: default width in the reference configuration
(`Constant.MODEL_WIDTH`). -/
def MODEL_WIDTH : Nat := 64

/-- Modelled from the spec: the fixed convolutional dropout rate
(`Constant.CONV_DROPOUT_RATE`); the spec fixes no numeric value and no
claim depends on it. -/
def CONV_DROPOUT_RATE : Rat := 1 / 4

/-- Modelled from the spec: the fixed MLP dropout rate
(`Constant.MLP_DROPOUT_RATE`); the spec fixes no numeric value and no
claim depends on it. -/
def MLP_DROPOUT_RATE : Rat := 1 / 4

end Constant

/-- The MLP width argument: a single integer (broadcast) or a per-layer
width sequence. -/
inductive WidthArg where
  | int (w : Nat) : WidthArg
  | list (ws : List Nat) : WidthArg
  deriving DecidableEq, Repr

/-- `CnnGenerator.__init__`: stores output cardinality and input shape,
validates the input rank (`len > 4` or `len < 2` raises), and resolves the
operator families for `n_dim = len(input_shape) - 1`. -/
structure CnnGenerator where
  n_output_node : Nat
  input_shape : List Nat
  n_dim : Int
  deriving DecidableEq, Repr

/-- Construction of a `CnnGenerator` (`CnnGenerator.__init__`). -/
def CnnGenerator.init (n_output_node : Nat) (input_shape : List Nat) :
    Except GenError CnnGenerator :=
  let nd : Int := (input_shape.length : Int) - 1
  if 4 < input_shape.length then Except.error GenError.invalidInputRank
  else if input_shape.length < 2 then Except.error GenError.invalidInputRank
  else (resolveRank nd).map fun _ => ⟨n_output_node, input_shape, nd⟩

/-- One iteration of the CNN generation loop (`CnnGenerator.generate`,
loop body): activation, normalization over the frontier's channel count,
convolution (kernel 3, stride 1) to `model_width` channels, and a pooling
operator when `pooling_len == 0` or `(i+1) % pooling_len == 0 and
i != model_len - 1`. The pooling and convolution operators carry the
spec-modelled default parameters (pooling kernel 2 stride 2, convolution
padding `kernel / 2`). -/
def cnnIter (model_width pooling_len model_len : Nat)
    (st : Graph × Nat × Nat) (i : Nat) : Graph × Nat × Nat :=
  let a := st.1.add_layer StubLayer.relu [st.2.1]
  let b := a.1.add_layer (StubLayer.batchNorm ((a.1.shapeOf a.2).getLastD 0)) [a.2]
  let c := b.1.add_layer (StubLayer.conv st.2.2 model_width 3 1 1 1) [b.2]
  if pooling_len = 0 ∨ ((i + 1) % pooling_len = 0 ∧ i ≠ model_len - 1) then
    let p := c.1.add_layer (StubLayer.pooling 2 2 0) [c.2]
    (p.1, p.2, model_width)
  else (c.1, c.2, model_width)

/-- Tail of CNN generation (`CnnGenerator.generate`, after the loop):
global average pooling, dropout, dense to `model_width`, activation, and a
final dense to the output cardinality. -/
def cnnTail (n model_width : Nat) (st : Graph × Nat × Nat) : Graph :=
  let a := st.1.add_layer StubLayer.globalAvgPooling [st.2.1]
  let b := a.1.add_layer (StubLayer.dropout Constant.CONV_DROPOUT_RATE) [a.2]
  let c := b.1.add_layer (StubLayer.dense ((b.1.shapeOf b.2).getD 0 0) model_width) [b.2]
  let d := c.1.add_layer StubLayer.relu [c.2]
  (d.1.add_layer (StubLayer.dense model_width n) [d.2]).1

/-- `CnnGenerator.generate`. -/
def CnnGenerator.generate (g : CnnGenerator)
    (model_len model_width : Option Nat) : Graph :=
  let ml := model_len.getD Constant.MODEL_LEN
  let mw := model_width.getD Constant.MODEL_WIDTH
  cnnTail g.n_output_node mw
    ((List.range ml).foldl (cnnIter mw (ml / 4) ml)
      (Graph.init g.input_shape, 0, g.input_shape.getLastD 0))

/-- `MlpGenerator.__init__`: validates only that the input rank is not
greater than 1. -/
structure MlpGenerator where
  n_output_node : Nat
  input_shape : List Nat
  deriving DecidableEq, Repr

/-- Construction of an `MlpGenerator` (`MlpGenerator.__init__`). -/
def MlpGenerator.init (n_output_node : Nat) (input_shape : List Nat) :
    Except GenError MlpGenerator :=
  if 1 < input_shape.length then Except.error GenError.invalidInputRank
  else Except.ok ⟨n_output_node, input_shape⟩

/-- One hidden layer of MLP generation (`MlpGenerator.generate`, loop
body): dense from the previous layer size, dropout, activation. -/
def mlpStep (st : Graph × Nat × Nat) (width : Nat) : Graph × Nat × Nat :=
  let a := st.1.add_layer (StubLayer.dense st.2.2 width) [st.2.1]
  let b := a.1.add_layer (StubLayer.dropout Constant.MLP_DROPOUT_RATE) [a.2]
  let c := b.1.add_layer StubLayer.relu [b.2]
  (c.1, c.2, width)

/-- Tail of MLP generation: the final dense from the last hidden width to
the output cardinality. -/
def mlpTail (n : Nat) (st : Graph × Nat × Nat) : Graph :=
  (st.1.add_layer (StubLayer.dense st.2.2 n) [st.2.1]).1

/-- The MLP graph built for an explicit per-layer width list: the source
reads `self.input_shape[0]` as the first layer's input size, which raises
an index error on an empty input shape (reachable, since construction
accepts rank 0); otherwise the hidden layers are folded over the widths
and the final dense is appended. -/
def mlpBuild (g : MlpGenerator) (ws : List Nat) : Except GenError Graph :=
  match g.input_shape with
  | [] => Except.error GenError.indexError
  | n0 :: _ =>
      Except.ok (mlpTail g.n_output_node
        (ws.foldl mlpStep (Graph.init g.input_shape, 0, n0)))

/-- `MlpGenerator.generate`: a list-valued width whose length differs from
`model_len` fails with the width-length mismatch error (this check runs
before anything else); an integer width is broadcast to every layer; the
body then builds the graph, failing with the index error on an empty
input shape. -/
def MlpGenerator.generate (g : MlpGenerator)
    (model_len : Option Nat) (model_width : Option WidthArg) :
    Except GenError Graph :=
  let ml := model_len.getD Constant.MODEL_LEN
  let mw := model_width.getD (WidthArg.int Constant.MODEL_WIDTH)
  match mw with
  | WidthArg.list ws =>
      if ¬ ws.length = ml then Except.error GenError.widthLengthMismatch
      else mlpBuild g ws
  | WidthArg.int w => mlpBuild g (List.replicate ml w)

/-- `ResNetGenerator.__init__`: rank validation as for the CNN generator,
plus the mutable running channel counter `in_planes` (initialized to 64)
and `block_expansion = 1`. -/
structure ResNetGenerator where
  n_output_node : Nat
  input_shape : List Nat
  in_planes : Nat
  block_expansion : Nat
  n_dim : Int
  deriving DecidableEq, Repr

/-- Construction of a `ResNetGenerator` (`ResNetGenerator.__init__`). -/
def ResNetGenerator.init (n_output_node : Nat) (input_shape : List Nat) :
    Except GenError ResNetGenerator :=
  let nd : Int := (input_shape.length : Int) - 1
  if 4 < input_shape.length then Except.error GenError.invalidInputRank
  else if input_shape.length < 2 then Except.error GenError.invalidInputRank
  else (resolveRank nd).map fun _ => ⟨n_output_node, input_shape, 64, 1, nd⟩

/-- `ResNetGenerator._make_block`: pre-activation basic block; main branch
conv(kernel 3, given stride) then conv(kernel 3, stride 1), projection
shortcut conv(kernel 1, given stride), summed with elementwise-add. -/
def resnetMakeBlock (block_expansion : Nat) (graph : Graph)
    (in_planes planes node_id stride : Nat) : Graph × Nat :=
  let a := graph.add_layer (StubLayer.batchNorm in_planes) [node_id]
  let b := a.1.add_layer StubLayer.relu [a.2]
  let c := b.1.add_layer (StubLayer.conv in_planes planes 3 stride 1 1) [b.2]
  let d := c.1.add_layer (StubLayer.batchNorm planes) [c.2]
  let e := d.1.add_layer StubLayer.relu [d.2]
  let f := e.1.add_layer (StubLayer.conv planes planes 3 1 1 1) [e.2]
  let r := f.1.add_layer StubLayer.relu [b.2]
  let r2 := r.1.add_layer
    (StubLayer.conv in_planes (planes * block_expansion) 1 stride 0 1) [r.2]
  r2.1.add_layer StubLayer.add [f.2, r2.2]

/-- `ResNetGenerator._make_layer`: `blocks` basic blocks, the first with
the given stride and the rest with stride 1, threading the mutable
`in_planes` counter (set to `planes * block_expansion` after each block). -/
def resnetMakeLayer (block_expansion : Nat) (graph : Graph)
    (planes blocks node_id stride in_planes : Nat) : Graph × Nat × Nat :=
  (stride :: List.replicate (blocks - 1) 1).foldl
    (fun st s =>
      let r := resnetMakeBlock block_expansion st.1 st.2.2 planes st.2.1 s
      (r.1, r.2, planes * block_expansion))
    (graph, node_id, in_planes)

/-- Tail of ResNet generation: global average pooling and the final dense
from `model_width * block_expansion` to the output cardinality. -/
def resnetTail (n model_width block_expansion : Nat) (st : Graph × Nat) : Graph :=
  let a := st.1.add_layer StubLayer.globalAvgPooling [st.2]
  (a.1.add_layer (StubLayer.dense (model_width * block_expansion) n) [a.2]).1

/-- The four stages of ResNet generation: two blocks per stage, the
stage's first block with stride 2 (stride 1 for the first stage), and the
width doubling at the start of stages 2 to 4, threading the mutable
`in_planes` counter through `_make_layer`. -/
def resnetBody (block_expansion : Nat) (graph : Graph)
    (node_id mw in_planes : Nat) : Graph × Nat × Nat :=
  [(mw, 1), (mw * 2, 2), (mw * 2 * 2, 2), (mw * 2 * 2 * 2, 2)].foldl
    (fun st c => resnetMakeLayer block_expansion st.1 c.1 2 st.2.1 c.2 st.2.2)
    (graph, node_id, in_planes)

/-- `ResNetGenerator.generate`: initial conv(kernel 3) and normalization,
four stages of two blocks with width doubling, then the tail. The result
also carries the generator instance with its updated `in_planes` field
(`_make_layer` mutates `self.in_planes`); `model_len` is unused. -/
def ResNetGenerator.generate (g : ResNetGenerator)
    (_model_len model_width : Option Nat) : Graph × ResNetGenerator :=
  let mw := model_width.getD Constant.MODEL_WIDTH
  let graph := Graph.init g.input_shape
  let r0 := graph.add_layer
    (StubLayer.conv (g.input_shape.getLastD 0) mw 3 1 1 1) [0]
  let r1 := r0.1.add_layer (StubLayer.batchNorm mw) [r0.2]
  let body := resnetBody g.block_expansion r1.1 r1.2 mw g.in_planes
  (resnetTail g.n_output_node (mw * 2 * 2 * 2) g.block_expansion (body.1, body.2.1),
   { g with in_planes := body.2.2 })

/-- `DenseNetGenerator.__init__`: stores the DenseNet constants
(initial feature width 64, growth rate 32, block configuration
(6, 12, 24, 16), bottleneck size 4, dropout rate 0) and resolves the
operator families for `n_dim`; unlike the other templates it performs no
input-rank validation of its own. -/
structure DenseNetGenerator where
  n_output_node : Nat
  input_shape : List Nat
  num_init_features : Nat
  growth_rate : Nat
  bn_size : Nat
  block_config : List Nat
  drop_rate : Rat
  n_dim : Int
  deriving DecidableEq, Repr

/-- Construction of a `DenseNetGenerator` (`DenseNetGenerator.__init__`):
no rank check; construction can only fail inside the spec-modelled
dimensional operator resolver. -/
def DenseNetGenerator.init (n_output_node : Nat) (input_shape : List Nat) :
    Except GenError DenseNetGenerator :=
  let nd : Int := (input_shape.length : Int) - 1
  (resolveRank nd).map fun _ =>
    ⟨n_output_node, input_shape, 64, 32, 4, [6, 12, 24, 16], 0, nd⟩

/-- `DenseNetGenerator._dense_layer`, bottleneck chain: normalization,
activation, bottleneck conv(kernel 1) to `bn_size * growth_rate`,
normalization, activation, conv(kernel 3, padding 1) to `growth_rate`,
and dropout. -/
def densenetLayerMain (drop_rate : Rat) (graph : Graph)
    (num_input_features growth_rate bn_size input_node_id : Nat) : Graph × Nat :=
  let a := graph.add_layer (StubLayer.batchNorm num_input_features) [input_node_id]
  let b := a.1.add_layer StubLayer.relu [a.2]
  let c := b.1.add_layer
    (StubLayer.conv num_input_features (bn_size * growth_rate) 1 1 0 1) [b.2]
  let d := c.1.add_layer (StubLayer.batchNorm (bn_size * growth_rate)) [c.2]
  let e := d.1.add_layer StubLayer.relu [d.2]
  let f := e.1.add_layer
    (StubLayer.conv (bn_size * growth_rate) growth_rate 3 1 1 1) [e.2]
  f.1.add_layer (StubLayer.dropout drop_rate) [f.2]

/-- `DenseNetGenerator._dense_layer`, final step: the bottleneck chain's
output concatenated with the layer's own input node. -/
def densenetDenseLayer (drop_rate : Rat) (graph : Graph)
    (num_input_features growth_rate bn_size input_node_id : Nat) : Graph × Nat :=
  let h := densenetLayerMain drop_rate graph num_input_features growth_rate
    bn_size input_node_id
  h.1.add_layer StubLayer.concatenate [input_node_id, h.2]

/-- `DenseNetGenerator._dense_block`: `num_layers` dense layers, the i-th
declared over `num_input_features + i * growth_rate` input channels. -/
def densenetDenseBlock (drop_rate : Rat) (graph : Graph)
    (num_layers num_input_features bn_size growth_rate input_node_id : Nat) :
    Graph × Nat :=
  (List.range num_layers).foldl
    (fun st i =>
      densenetDenseLayer drop_rate st.1
        (num_input_features + i * growth_rate) growth_rate bn_size st.2)
    (graph, input_node_id)

/-- `DenseNetGenerator._transition`: normalization, activation,
conv(kernel 1) to `num_output_features`, average pooling (kernel 2,
stride 2). -/
def densenetTransition (graph : Graph)
    (num_input_features num_output_features input_node_id : Nat) : Graph × Nat :=
  let a := graph.add_layer (StubLayer.batchNorm num_input_features) [input_node_id]
  let b := a.1.add_layer StubLayer.relu [a.2]
  let c := b.1.add_layer
    (StubLayer.conv num_input_features num_output_features 1 1 0 1) [b.2]
  c.1.add_layer (StubLayer.avgPooling 2 2 0) [c.2]

/-- The dense-block/transition section of `DenseNetGenerator.generate`:
for each entry of the block configuration run a dense block, accumulate
`num_features + num_layers * growth_rate`, and after every block except the
last run a transition to half the features (integer floor division). -/
def densenetBody (g : DenseNetGenerator) (st : Graph × Nat × Nat) :
    Graph × Nat × Nat :=
  g.block_config.enum.foldl
    (fun st p =>
      let r := densenetDenseBlock g.drop_rate st.1 p.2 st.2.2 g.bn_size
        g.growth_rate st.2.1
      let nf := st.2.2 + p.2 * g.growth_rate
      if p.1 ≠ g.block_config.length - 1 then
        let t := densenetTransition r.1 nf (nf / 2) r.2
        (t.1, t.2, nf / 2)
      else (r.1, r.2, nf))
    st

/-- Tail of DenseNet generation: final normalization, activation, global
average pooling, and the dense to the output cardinality. -/
def densenetTail (n num_features : Nat) (st : Graph × Nat) : Graph :=
  let a := st.1.add_layer (StubLayer.batchNorm num_features) [st.2]
  let b := a.1.add_layer StubLayer.relu [a.2]
  let c := b.1.add_layer StubLayer.globalAvgPooling [b.2]
  (c.1.add_layer (StubLayer.dense num_features n) [c.2]).1

/-- Head of DenseNet generation (`DenseNetGenerator.generate`, first
convolution section): conv(kernel 7) to `model_width`, normalization over
the fixed `num_init_features` (not over `model_width`), activation, and
max pooling (kernel 3, stride 2, padding 1). -/
def densenetHead (g : DenseNetGenerator) (mw : Nat) : Graph × Nat :=
  let graph := Graph.init g.input_shape
  let r0 := graph.add_layer
    (StubLayer.conv (g.input_shape.getLastD 0) mw 7 1 3 1) [0]
  let r1 := r0.1.add_layer (StubLayer.batchNorm g.num_init_features) [r0.2]
  let r2 := r1.1.add_layer StubLayer.relu [r1.2]
  r2.1.add_layer (StubLayer.pooling 3 2 1) [r2.2]

/-- `DenseNetGenerator.generate`: the head, the dense-block/transition
body, and the tail; `model_len` is unused. -/
def DenseNetGenerator.generate (g : DenseNetGenerator)
    (_model_len model_width : Option Nat) : Graph :=
  let mw := model_width.getD Constant.MODEL_WIDTH
  let hd := densenetHead g mw
  let body := densenetBody g (hd.1, hd.2, g.num_init_features)
  densenetTail g.n_output_node body.2.2 (body.1, body.2.1)

/-- `MobileNetV2Generator.__init__`: rank validation as for the CNN
generator, the reduced two-stage configuration table
`[(1, 16, 1, 1), (6, 24, 2, 1)]` of (expansion, out_planes, num_blocks,
stride) tuples, and the mutable `in_planes` counter initialized to 32. -/
structure MobileNetV2Generator where
  n_output_node : Nat
  input_shape : List Nat
  cfg : List (Nat × Nat × Nat × Nat)
  in_planes : Nat
  block_expansion : Nat
  n_dim : Int
  deriving DecidableEq, Repr

/-- Construction of a `MobileNetV2Generator`
(`MobileNetV2Generator.__init__`). -/
def MobileNetV2Generator.init (n_output_node : Nat) (input_shape : List Nat) :
    Except GenError MobileNetV2Generator :=
  let nd : Int := (input_shape.length : Int) - 1
  if 4 < input_shape.length then Except.error GenError.invalidInputRank
  else if input_shape.length < 2 then Except.error GenError.invalidInputRank
  else (resolveRank nd).map fun _ =>
    ⟨n_output_node, input_shape, [(1, 16, 1, 1), (6, 24, 2, 1)], 32, 1, nd⟩

/-- Main branch of `MobileNetV2Generator._make_block`: expansion
conv(kernel 1) to `planes = expansion * in_planes`, depthwise conv(kernel
3, given stride, groups = planes), projection conv(kernel 1) to
`out_planes`, each followed by a normalization over the frontier's channel
count, the first two also by an activation. -/
def mobilenetMainChain (graph : Graph)
    (in_planes out_planes expansion node_id stride : Nat) : Graph × Nat :=
  let planes := expansion * in_planes
  let a := graph.add_layer (StubLayer.conv in_planes planes 1 1 0 1) [node_id]
  let b := a.1.add_layer (StubLayer.batchNorm ((a.1.shapeOf a.2).getLastD 0)) [a.2]
  let c := b.1.add_layer StubLayer.relu [b.2]
  let d := c.1.add_layer (StubLayer.conv planes planes 3 stride 1 planes) [c.2]
  let e := d.1.add_layer (StubLayer.batchNorm ((d.1.shapeOf d.2).getLastD 0)) [d.2]
  let f := e.1.add_layer StubLayer.relu [e.2]
  let g2 := f.1.add_layer (StubLayer.conv planes out_planes 1 1 0 1) [f.2]
  g2.1.add_layer (StubLayer.batchNorm ((g2.1.shapeOf g2.2).getLastD 0)) [g2.2]

/-- `MobileNetV2Generator._make_block`: inverted residual block; the main
chain, and only when `stride == 1` and `in_planes != out_planes` a
projection shortcut (conv kernel 1 then normalization) built from the
block's original input and summed with the main branch by an
elementwise-add. -/
def mobilenetMakeBlock (graph : Graph)
    (in_planes out_planes expansion node_id stride : Nat) : Graph × Nat :=
  let h := mobilenetMainChain graph in_planes out_planes expansion node_id stride
  if stride = 1 ∧ ¬ in_planes = out_planes then
    let s := h.1.add_layer (StubLayer.conv in_planes out_planes 1 1 0 1) [node_id]
    let t := s.1.add_layer (StubLayer.batchNorm ((s.1.shapeOf s.2).getLastD 0)) [s.2]
    t.1.add_layer StubLayer.add [h.2, t.2]
  else h

/-- `MobileNetV2Generator._make_layer`: expand each configuration tuple to
`num_blocks` blocks (only the first with the tuple's stride), threading the
mutable `in_planes` counter (set to `out_planes` after each block). -/
def mobilenetMakeLayer (cfg : List (Nat × Nat × Nat × Nat)) (graph : Graph)
    (node_id in_planes : Nat) : Graph × Nat × Nat :=
  cfg.foldl
    (fun st c =>
      (c.2.2.2 :: List.replicate (c.2.2.1 - 1) 1).foldl
        (fun st2 s =>
          let r := mobilenetMakeBlock st2.1 st2.2.2 c.2.1 c.1 st2.2.1 s
          (r.1, r.2, c.2.1))
        st)
    (graph, node_id, in_planes)

/-- Tail of MobileNetV2 generation: conv(kernel 1) from `out_planes` to
`out_planes * 4`, normalization, activation, global average pooling, and
the dense from `out_planes * 4` to the output cardinality. -/
def mobilenetTail (n out_planes : Nat) (st : Graph × Nat) : Graph :=
  let a := st.1.add_layer
    (StubLayer.conv out_planes (out_planes * 4) 1 1 0 1) [st.2]
  let b := a.1.add_layer (StubLayer.batchNorm ((a.1.shapeOf a.2).getLastD 0)) [a.2]
  let c := b.1.add_layer StubLayer.relu [b.2]
  let d := c.1.add_layer StubLayer.globalAvgPooling [c.2]
  (d.1.add_layer (StubLayer.dense (out_planes * 4) n) [d.2]).1

/-- `MobileNetV2Generator.generate`: initial conv(kernel 3, stride 1,
padding 1) to `in_planes`, normalization, activation, the block stages,
and the tail with the fixed local constant `out_planes = 24`. Both the
`model_len` and `model_width` arguments are ignored by the source. The
result also carries the generator instance with its updated `in_planes`
field (`_make_layer` mutates `self.in_planes`). -/
def MobileNetV2Generator.generate (g : MobileNetV2Generator)
    (_model_len : Option Nat) (_model_width : Option Nat) :
    Graph × MobileNetV2Generator :=
  let graph := Graph.init g.input_shape
  let out_planes := 24
  let r0 := graph.add_layer
    (StubLayer.conv (g.input_shape.getLastD 0) g.in_planes 3 1 1 1) [0]
  let r1 := r0.1.add_layer (StubLayer.batchNorm ((r0.1.shapeOf r0.2).getLastD 0)) [r0.2]
  let r2 := r1.1.add_layer StubLayer.relu [r1.2]
  let body := mobilenetMakeLayer g.cfg r2.1 r2.2 g.in_planes
  (mobilenetTail g.n_output_node out_planes (body.1, body.2.1),
   { g with in_planes := body.2.2 })

/-- The layer list of one graph extends that of another: the relation
every generation step preserves (graphs only ever append). -/
def layerGrows (g g' : Graph) : Prop :=
  ∃ t, g'.layerList = g.layerList ++ t

/-- The node list of one graph extends that of another: appends never
change existing nodes. -/
def nodeGrows (g g' : Graph) : Prop :=
  ∃ t, g'.nodeList = g.nodeList ++ t

/-- A freshly constructed ResNet generator instance for one output node
and the rank-2 input shape (1, 1) (the payload of
`ResNetGenerator.init 1 [1, 1]`). -/
def resnetFresh : ResNetGenerator := ⟨1, [1, 1], 64, 1, 1⟩

/-- First generation call on the fresh ResNet instance. -/
def resnetRun1 : Graph × ResNetGenerator := resnetFresh.generate none none

/-- Second generation call with identical arguments, on the instance as
the first call left it. -/
def resnetRun2 : Graph × ResNetGenerator := resnetRun1.2.generate none none

/-- A freshly constructed MobileNetV2 generator instance for one output
node and the rank-2 input shape (1, 1) (the payload of
`MobileNetV2Generator.init 1 [1, 1]`). -/
def mobilenetFresh : MobileNetV2Generator :=
  ⟨1, [1, 1], [(1, 16, 1, 1), (6, 24, 2, 1)], 32, 1, 1⟩

/-- First generation call on the fresh MobileNetV2 instance. -/
def mobilenetRun1 : Graph × MobileNetV2Generator := mobilenetFresh.generate none none

/-- Second generation call with identical arguments, on the instance as
the first call left it. -/
def mobilenetRun2 : Graph × MobileNetV2Generator := mobilenetRun1.2.generate none none

/-- The plain-CNN graph for depth 8, width 16, input shape (32, 32, 3)
and output cardinality 10. -/
def cnnDepth8 : Graph := CnnGenerator.generate ⟨10, [32, 32, 3], 2⟩ (some 8) (some 16)

lemma Graph.add_layer_snd (g : Graph) (l : StubLayer) (ids : List Nat) :
    (g.add_layer l ids).2 = g.nodeList.length := rfl

lemma Graph.add_layer_nodeList (g : Graph) (l : StubLayer) (ids : List Nat) :
    (g.add_layer l ids).1.nodeList = g.nodeList ++ [outShape l (ids.map g.shapeOf)] := rfl

lemma Graph.add_layer_layerList (g : Graph) (l : StubLayer) (ids : List Nat) :
    (g.add_layer l ids).1.layerList = g.layerList ++ [⟨l, ids, g.nodeList.length⟩] := rfl

lemma Graph.add_layer_length (g : Graph) (l : StubLayer) (ids : List Nat) :
    (g.add_layer l ids).1.nodeList.length = g.nodeList.length + 1 := by
  simp [Graph.add_layer]

lemma Graph.shapeOf_add_layer_new (g : Graph) (l : StubLayer) (ids : List Nat) :
    (g.add_layer l ids).1.shapeOf ((g.add_layer l ids).2) =
      outShape l (ids.map g.shapeOf) := by
  simp [Graph.add_layer, Graph.shapeOf, List.getD_append_right]

lemma Graph.shapeOf_add_layer_lt (g : Graph) (l : StubLayer) (ids : List Nat)
    (i : Nat) (h : i < g.nodeList.length) :
    (g.add_layer l ids).1.shapeOf i = g.shapeOf i :=
  List.getD_append _ _ _ _ h

lemma Graph.countAdds_add_layer (g : Graph) (l : StubLayer) (ids : List Nat) :
    (g.add_layer l ids).1.countAdds =
      g.countAdds + (if l = StubLayer.add then 1 else 0) := by
  by_cases h : l = StubLayer.add
  · simp [Graph.countAdds, Graph.add_layer, List.filter_append, List.filter, h]
  · have hb : (l == StubLayer.add) = false := by simp [h]
    simp [Graph.countAdds, Graph.add_layer, List.filter_append, List.filter, h, hb]

lemma map_spatialOut_k1 (dims : List Nat) (h : ∀ d ∈ dims, 1 ≤ d) :
    dims.map (fun d => spatialOut d 1 1 0) = dims := by
  rw [List.map_congr_left (g := id) ?_, List.map_id]
  intro d hd
  have := h d hd
  simp [spatialOut]
  omega

lemma map_spatialOut_k3 (dims : List Nat) (h : ∀ d ∈ dims, 1 ≤ d) :
    dims.map (fun d => spatialOut d 3 1 1) = dims := by
  rw [List.map_congr_left (g := id) ?_, List.map_id]
  intro d hd
  have := h d hd
  simp [spatialOut]
  omega

lemma finalShape_cnnTail (n w : Nat) (st : Graph × Nat × Nat) :
    (cnnTail n w st).finalShape = [n] := by
  simp [cnnTail, Graph.add_layer, Graph.finalShape, outShape, List.getLastD_concat]

lemma finalShape_mlpTail (n : Nat) (st : Graph × Nat × Nat) :
    (mlpTail n st).finalShape = [n] := by
  simp [mlpTail, Graph.add_layer, Graph.finalShape, outShape, List.getLastD_concat]

lemma finalShape_resnetTail (n w be : Nat) (st : Graph × Nat) :
    (resnetTail n w be st).finalShape = [n] := by
  simp [resnetTail, Graph.add_layer, Graph.finalShape, outShape, List.getLastD_concat]

lemma finalShape_densenetTail (n nf : Nat) (st : Graph × Nat) :
    (densenetTail n nf st).finalShape = [n] := by
  simp [densenetTail, Graph.add_layer, Graph.finalShape, outShape, List.getLastD_concat]

lemma finalShape_mobilenetTail (n op : Nat) (st : Graph × Nat) :
    (mobilenetTail n op st).finalShape = [n] := by
  simp [mobilenetTail, Graph.add_layer, Graph.finalShape, outShape, List.getLastD_concat]

lemma lastLayer_resnetTail (n w be : Nat) (st : Graph × Nat) :
    ((resnetTail n w be st).lastLayer).map LayerRec.layer =
      some (StubLayer.dense (w * be) n) := by
  simp [resnetTail, Graph.add_layer, Graph.lastLayer, List.getLast?_concat]

lemma layerGrows_refl (g : Graph) : layerGrows g g := ⟨[], by simp⟩

lemma layerGrows_trans {g g' g'' : Graph}
    (h1 : layerGrows g g') (h2 : layerGrows g' g'') : layerGrows g g'' := by
  obtain ⟨t1, ht1⟩ := h1
  obtain ⟨t2, ht2⟩ := h2
  exact ⟨t1 ++ t2, by simp [ht2, ht1]⟩

lemma layerGrows_add_layer (g : Graph) (l : StubLayer) (ids : List Nat) :
    layerGrows g (g.add_layer l ids).1 := ⟨_, rfl⟩

lemma layerGrows_foldl {σ α : Type} (proj : σ → Graph) (f : σ → α → σ)
    (hf : ∀ s a, layerGrows (proj s) (proj (f s a))) :
    ∀ (l : List α) (s : σ), layerGrows (proj s) (proj (l.foldl f s)) := by
  intro l
  induction l with
  | nil => intro s; exact layerGrows_refl _
  | cons a t ih => intro s; exact layerGrows_trans (hf s a) (ih (f s a))

lemma layerGrows_getD {g g' : Graph} (h : layerGrows g g') (i : Nat)
    (hi : i < g.layerList.length) :
    g'.layerList.getD i dummyRec = g.layerList.getD i dummyRec := by
  obtain ⟨t, ht⟩ := h
  rw [ht]
  exact List.getD_append _ _ _ _ hi

lemma layerGrows_densenetDenseLayer (dr : Rat) (graph : Graph)
    (a b c id : Nat) :
    layerGrows graph (densenetDenseLayer dr graph a b c id).1 := by
  simp only [densenetDenseLayer]
  repeat refine layerGrows_trans ?_ (layerGrows_add_layer _ _ _)
  exact layerGrows_refl _

lemma layerGrows_densenetDenseBlock (dr : Rat) (graph : Graph)
    (n nf bs gr id : Nat) :
    layerGrows graph (densenetDenseBlock dr graph n nf bs gr id).1 := by
  simp only [densenetDenseBlock]
  exact layerGrows_foldl (fun st : Graph × Nat => st.1) _
    (fun s a => layerGrows_densenetDenseLayer _ _ _ _ _ _) _ _

lemma layerGrows_densenetTransition (graph : Graph) (a b id : Nat) :
    layerGrows graph (densenetTransition graph a b id).1 := by
  simp only [densenetTransition]
  repeat refine layerGrows_trans ?_ (layerGrows_add_layer _ _ _)
  exact layerGrows_refl _

lemma layerGrows_densenetBody (g : DenseNetGenerator) (st : Graph × Nat × Nat) :
    layerGrows st.1 (densenetBody g st).1 := by
  simp only [densenetBody]
  refine layerGrows_foldl (fun st : Graph × Nat × Nat => st.1) _ ?_ _ _
  intro s p
  by_cases h : p.1 ≠ g.block_config.length - 1
  · rw [if_pos h]
    exact layerGrows_trans (layerGrows_densenetDenseBlock _ _ _ _ _ _ _)
      (layerGrows_densenetTransition _ _ _ _)
  · rw [if_neg h]
    exact layerGrows_densenetDenseBlock _ _ _ _ _ _ _

lemma layerGrows_densenetTail (n nf : Nat) (st : Graph × Nat) :
    layerGrows st.1 (densenetTail n nf st) := by
  simp only [densenetTail]
  repeat refine layerGrows_trans ?_ (layerGrows_add_layer _ _ _)
  exact layerGrows_refl _

lemma nodeGrows_refl (g : Graph) : nodeGrows g g := ⟨[], by simp⟩

lemma nodeGrows_trans {g g' g'' : Graph}
    (h1 : nodeGrows g g') (h2 : nodeGrows g' g'') : nodeGrows g g'' := by
  obtain ⟨t1, ht1⟩ := h1
  obtain ⟨t2, ht2⟩ := h2
  exact ⟨t1 ++ t2, by simp [ht2, ht1]⟩

lemma nodeGrows_add_layer (g : Graph) (l : StubLayer) (ids : List Nat) :
    nodeGrows g (g.add_layer l ids).1 := ⟨_, rfl⟩

lemma nodeGrows_shapeOf {g g' : Graph} (h : nodeGrows g g') (i : Nat)
    (hi : i < g.nodeList.length) : g'.shapeOf i = g.shapeOf i := by
  obtain ⟨t, ht⟩ := h
  unfold Graph.shapeOf
  rw [ht]
  exact List.getD_append _ _ _ _ hi

lemma nodeGrows_length {g g' : Graph} (h : nodeGrows g g') :
    g.nodeList.length ≤ g'.nodeList.length := by
  obtain ⟨t, ht⟩ := h
  simp [ht]

lemma cnn_generate_finalShape (gen : CnnGenerator) (a b : Option Nat) :
    (gen.generate a b).finalShape = [gen.n_output_node] := by
  simp only [CnnGenerator.generate]
  exact finalShape_cnnTail _ _ _

lemma mlpBuild_cons (n k : Nat) (t ws : List Nat) :
    mlpBuild ⟨n, k :: t⟩ ws =
      Except.ok (mlpTail n (ws.foldl mlpStep (Graph.init (k :: t), 0, k))) := rfl

lemma mlpBuild_never_widthLengthMismatch (g : MlpGenerator) (ws : List Nat) :
    mlpBuild g ws ≠ Except.error GenError.widthLengthMismatch := by
  obtain ⟨n, ishape⟩ := g
  cases ishape with
  | nil => simp [mlpBuild]
  | cons k t => simp [mlpBuild]

lemma resnet_generate_finalShape (gen : ResNetGenerator) (a b : Option Nat) :
    (gen.generate a b).1.finalShape = [gen.n_output_node] := by
  simp only [ResNetGenerator.generate]
  exact finalShape_resnetTail _ _ _ _

lemma densenet_generate_finalShape (gen : DenseNetGenerator) (a b : Option Nat) :
    (gen.generate a b).finalShape = [gen.n_output_node] := by
  simp only [DenseNetGenerator.generate]
  exact finalShape_densenetTail _ _ _

lemma mobilenet_generate_finalShape (gen : MobileNetV2Generator) (a b : Option Nat) :
    (gen.generate a b).1.finalShape = [gen.n_output_node] := by
  simp only [MobileNetV2Generator.generate]
  exact finalShape_mobilenetTail _ _ _

lemma cnn_init_ok (n : Nat) (shape : List Nat)
    (h2 : 2 ≤ shape.length) (h4 : shape.length ≤ 4) :
    CnnGenerator.init n shape =
      Except.ok ⟨n, shape, (shape.length : Int) - 1⟩ := by
  have h : shape.length = 2 ∨ shape.length = 3 ∨ shape.length = 4 := by omega
  rcases h with h | h | h <;>
    simp [CnnGenerator.init, resolveRank, h, Except.map]

lemma mlp_init_ok (n : Nat) (shape : List Nat) (h1 : shape.length ≤ 1) :
    MlpGenerator.init n shape = Except.ok ⟨n, shape⟩ := by
  simp [MlpGenerator.init]
  omega

lemma resnet_init_ok (n : Nat) (shape : List Nat)
    (h2 : 2 ≤ shape.length) (h4 : shape.length ≤ 4) :
    ResNetGenerator.init n shape =
      Except.ok ⟨n, shape, 64, 1, (shape.length : Int) - 1⟩ := by
  have h : shape.length = 2 ∨ shape.length = 3 ∨ shape.length = 4 := by omega
  rcases h with h | h | h <;>
    simp [ResNetGenerator.init, resolveRank, h, Except.map]

lemma densenet_init_ok (n : Nat) (shape : List Nat)
    (h2 : 2 ≤ shape.length) (h4 : shape.length ≤ 4) :
    DenseNetGenerator.init n shape =
      Except.ok ⟨n, shape, 64, 32, 4, [6, 12, 24, 16], 0, (shape.length : Int) - 1⟩ := by
  have h : shape.length = 2 ∨ shape.length = 3 ∨ shape.length = 4 := by omega
  rcases h with h | h | h <;>
    simp [DenseNetGenerator.init, resolveRank, h, Except.map]

lemma mobilenet_init_ok (n : Nat) (shape : List Nat)
    (h2 : 2 ≤ shape.length) (h4 : shape.length ≤ 4) :
    MobileNetV2Generator.init n shape =
      Except.ok ⟨n, shape, [(1, 16, 1, 1), (6, 24, 2, 1)], 32, 1,
        (shape.length : Int) - 1⟩ := by
  have h : shape.length = 2 ∨ shape.length = 3 ∨ shape.length = 4 := by omega
  rcases h with h | h | h <;>
    simp [MobileNetV2Generator.init, resolveRank, h, Except.map]

lemma mobilenetMainChain_nodeGrows (graph : Graph) (ip op e id st : Nat) :
    nodeGrows graph (mobilenetMainChain graph ip op e id st).1 := by
  simp only [mobilenetMainChain]
  repeat refine nodeGrows_trans ?_ (nodeGrows_add_layer _ _ _)
  exact nodeGrows_refl _

lemma mobilenetMainChain_countAdds (graph : Graph) (ip op e id st : Nat) :
    (mobilenetMainChain graph ip op e id st).1.countAdds = graph.countAdds := by
  simp [mobilenetMainChain, Graph.countAdds_add_layer]

lemma mobilenetMainChain_length (graph : Graph) (ip op e id st : Nat) :
    (mobilenetMainChain graph ip op e id st).1.nodeList.length =
      graph.nodeList.length + 8 := by
  simp [mobilenetMainChain, Graph.add_layer_length]

lemma mobilenetMainChain_snd (graph : Graph) (ip op e id st : Nat) :
    (mobilenetMainChain graph ip op e id st).2 = graph.nodeList.length + 7 := by
  simp [mobilenetMainChain, Graph.add_layer_snd, Graph.add_layer_length]

lemma mobilenetMainChain_shape (graph : Graph) (ip op e id : Nat)
    (dims : List Nat) (c : Nat)
    (hshape : graph.shapeOf id = dims ++ [c])
    (hdims : ∀ d ∈ dims, 1 ≤ d) :
    (mobilenetMainChain graph ip op e id 1).1.shapeOf
      (mobilenetMainChain graph ip op e id 1).2 = dims ++ [op] := by
  simp only [mobilenetMainChain, Graph.shapeOf_add_layer_new,
    List.map_cons, List.map_nil, outShape]
  rw [hshape]
  simp [List.dropLast_concat, map_spatialOut_k1 dims hdims,
    map_spatialOut_k3 dims hdims]

lemma densenetLayerMain_nodeGrows (dr : Rat) (graph : Graph) (a b c id : Nat) :
    nodeGrows graph (densenetLayerMain dr graph a b c id).1 := by
  simp only [densenetLayerMain]
  repeat refine nodeGrows_trans ?_ (nodeGrows_add_layer _ _ _)
  exact nodeGrows_refl _

lemma densenetLayerMain_length (dr : Rat) (graph : Graph) (a b c id : Nat) :
    (densenetLayerMain dr graph a b c id).1.nodeList.length =
      graph.nodeList.length + 7 := by
  simp [densenetLayerMain, Graph.add_layer_length]

lemma densenetLayerMain_snd (dr : Rat) (graph : Graph) (a b c id : Nat) :
    (densenetLayerMain dr graph a b c id).2 = graph.nodeList.length + 6 := by
  simp [densenetLayerMain, Graph.add_layer_snd, Graph.add_layer_length]

lemma densenetLayerMain_shape (dr : Rat) (graph : Graph) (nfd gr bs id : Nat)
    (dims : List Nat) (c : Nat)
    (hshape : graph.shapeOf id = dims ++ [c])
    (hdims : ∀ d ∈ dims, 1 ≤ d) :
    (densenetLayerMain dr graph nfd gr bs id).1.shapeOf
      (densenetLayerMain dr graph nfd gr bs id).2 = dims ++ [gr] := by
  simp only [densenetLayerMain, Graph.shapeOf_add_layer_new,
    List.map_cons, List.map_nil, outShape]
  rw [hshape]
  simp [List.dropLast_concat, map_spatialOut_k1 dims hdims,
    map_spatialOut_k3 dims hdims]

lemma densenetDenseLayer_shape (dr : Rat) (graph : Graph) (nfd gr bs id : Nat)
    (dims : List Nat) (c : Nat)
    (hshape : graph.shapeOf id = dims ++ [c])
    (hdims : ∀ d ∈ dims, 1 ≤ d)
    (hid : id < graph.nodeList.length) :
    (densenetDenseLayer dr graph nfd gr bs id).1.shapeOf
      (densenetDenseLayer dr graph nfd gr bs id).2 = dims ++ [c + gr] ∧
    (densenetDenseLayer dr graph nfd gr bs id).2 <
      (densenetDenseLayer dr graph nfd gr bs id).1.nodeList.length := by
  simp only [densenetDenseLayer]
  constructor
  · rw [Graph.shapeOf_add_layer_new]
    simp only [List.map_cons, List.map_nil, outShape]
    rw [nodeGrows_shapeOf (densenetLayerMain_nodeGrows dr graph nfd gr bs id) id hid,
      hshape,
      densenetLayerMain_shape dr graph nfd gr bs id dims c hshape hdims]
    simp [List.dropLast_concat, List.getLastD_concat]
  · rw [Graph.add_layer_snd, Graph.add_layer_length]
    omega

lemma densenetDenseBlock_succ (dr : Rat) (graph : Graph)
    (n nf bs gr id : Nat) :
    densenetDenseBlock dr graph (n + 1) nf bs gr id =
      densenetDenseLayer dr (densenetDenseBlock dr graph n nf bs gr id).1
        (nf + n * gr) gr bs (densenetDenseBlock dr graph n nf bs gr id).2 := by
  simp [densenetDenseBlock, List.range_succ]

lemma densenetDenseBlock_shape (dr : Rat) (graph : Graph)
    (n nf bs gr id : Nat) (dims : List Nat) (c : Nat)
    (hshape : graph.shapeOf id = dims ++ [c])
    (hdims : ∀ d ∈ dims, 1 ≤ d)
    (hid : id < graph.nodeList.length) :
    (densenetDenseBlock dr graph n nf bs gr id).1.shapeOf
      (densenetDenseBlock dr graph n nf bs gr id).2 = dims ++ [c + n * gr] ∧
    (densenetDenseBlock dr graph n nf bs gr id).2 <
      (densenetDenseBlock dr graph n nf bs gr id).1.nodeList.length := by
  induction n with
  | zero =>
      refine ⟨?_, ?_⟩
      · simpa [densenetDenseBlock] using hshape
      · simpa [densenetDenseBlock] using hid
  | succ m ih =>
      rw [densenetDenseBlock_succ]
      have hstep := densenetDenseLayer_shape dr
        (densenetDenseBlock dr graph m nf bs gr id).1 (nf + m * gr) gr bs
        (densenetDenseBlock dr graph m nf bs gr id).2 dims (c + m * gr)
        ih.1 hdims ih.2
      refine ⟨?_, hstep.2⟩
      rw [hstep.1]
      have : c + m * gr + gr = c + (m + 1) * gr := by ring
      rw [this]

lemma densenetTransition_channel (graph : Graph) (m nfo id : Nat) :
    ((densenetTransition graph m nfo id).1.shapeOf
      (densenetTransition graph m nfo id).2).getLastD 0 = nfo := by
  simp only [densenetTransition, Graph.shapeOf_add_layer_new,
    List.map_cons, List.map_nil, outShape]
  simp [List.getLastD_concat]

/-- C1: for every template at each supported input rank (2 to 4 for the
CNN-family templates, 1 for the MLP template) and for all depth/width
arguments of the tested forms, construction succeeds and generation
returns a graph whose final node's shape has exactly the generator's
output cardinality as its last dimension. -/
theorem generate_succeeds_with_output_cardinality :
    (∀ (n : Nat) (shape : List Nat) (a b : Option Nat),
      2 ≤ shape.length → shape.length ≤ 4 →
      ∃ gen : CnnGenerator, CnnGenerator.init n shape = Except.ok gen ∧
        (gen.generate a b).finalShape.getLastD 0 = n) ∧
    (∀ (n w len : Nat) (shape ws : List Nat),
      shape.length = 1 →
      ∃ gen : MlpGenerator, MlpGenerator.init n shape = Except.ok gen ∧
        (∃ g1 : Graph, gen.generate none none = Except.ok g1 ∧
          g1.finalShape.getLastD 0 = n) ∧
        (∃ g2 : Graph, gen.generate (some len) (some (WidthArg.int w)) = Except.ok g2 ∧
          g2.finalShape.getLastD 0 = n) ∧
        (ws.length = len →
          ∃ g3 : Graph, gen.generate (some len) (some (WidthArg.list ws)) = Except.ok g3 ∧
            g3.finalShape.getLastD 0 = n)) ∧
    (∀ (n : Nat) (shape : List Nat) (a b : Option Nat),
      2 ≤ shape.length → shape.length ≤ 4 →
      ∃ gen : ResNetGenerator, ResNetGenerator.init n shape = Except.ok gen ∧
        (gen.generate a b).1.finalShape.getLastD 0 = n) ∧
    (∀ (n : Nat) (shape : List Nat) (a b : Option Nat),
      2 ≤ shape.length → shape.length ≤ 4 →
      ∃ gen : DenseNetGenerator, DenseNetGenerator.init n shape = Except.ok gen ∧
        (gen.generate a b).finalShape.getLastD 0 = n) ∧
    (∀ (n : Nat) (shape : List Nat) (a b : Option Nat),
      2 ≤ shape.length → shape.length ≤ 4 →
      ∃ gen : MobileNetV2Generator, MobileNetV2Generator.init n shape = Except.ok gen ∧
        (gen.generate a b).1.finalShape.getLastD 0 = n) := by
  refine ⟨?_, ?_, ?_, ?_, ?_⟩
  · intro n shape a b h2 h4
    exact ⟨_, cnn_init_ok n shape h2 h4, by rw [cnn_generate_finalShape]; rfl⟩
  · intro n w len shape ws h1
    obtain ⟨k, rfl⟩ : ∃ k, shape = [k] := by
      cases shape with
      | nil => simp at h1
      | cons k t =>
          cases t with
          | nil => exact ⟨k, rfl⟩
          | cons a t2 => simp at h1
    refine ⟨⟨n, [k]⟩, mlp_init_ok n [k] (by simp), ?_, ?_, ?_⟩
    · exact ⟨_, mlpBuild_cons n k [] _, by rw [finalShape_mlpTail]; rfl⟩
    · exact ⟨_, mlpBuild_cons n k [] _, by rw [finalShape_mlpTail]; rfl⟩
    · intro hlen
      refine ⟨mlpTail n (ws.foldl mlpStep (Graph.init [k], 0, k)), ?_,
        by rw [finalShape_mlpTail]; rfl⟩
      simp only [MlpGenerator.generate, Option.getD_some]
      rw [if_neg (by omega)]
      exact mlpBuild_cons n k [] ws
  · intro n shape a b h2 h4
    exact ⟨_, resnet_init_ok n shape h2 h4, by rw [resnet_generate_finalShape]; rfl⟩
  · intro n shape a b h2 h4
    exact ⟨_, densenet_init_ok n shape h2 h4, by rw [densenet_generate_finalShape]; rfl⟩
  · intro n shape a b h2 h4
    exact ⟨_, mobilenet_init_ok n shape h2 h4, by rw [mobilenet_generate_finalShape]; rfl⟩

/-- Witness for C1: the five template clauses instantiated at concrete
output cardinalities, input shapes and depth/width arguments. -/
theorem generate_succeeds_with_output_cardinality_witness :
    (∃ gen : CnnGenerator, CnnGenerator.init 10 [8, 8, 3] = Except.ok gen ∧
      (gen.generate (some 8) (some 16)).finalShape.getLastD 0 = 10) ∧
    (∃ gen : MlpGenerator, MlpGenerator.init 7 [4] = Except.ok gen ∧
      (∃ g1 : Graph, gen.generate none none = Except.ok g1 ∧
        g1.finalShape.getLastD 0 = 7) ∧
      (∃ g2 : Graph, gen.generate (some 3) (some (WidthArg.int 5)) = Except.ok g2 ∧
        g2.finalShape.getLastD 0 = 7) ∧
      ([8, 16, 32].length = 3 →
        ∃ g3 : Graph, gen.generate (some 3) (some (WidthArg.list [8, 16, 32])) =
          Except.ok g3 ∧ g3.finalShape.getLastD 0 = 7)) ∧
    (∃ gen : ResNetGenerator, ResNetGenerator.init 2 [5, 5, 3] = Except.ok gen ∧
      (gen.generate none none).1.finalShape.getLastD 0 = 2) ∧
    (∃ gen : DenseNetGenerator, DenseNetGenerator.init 3 [5, 5, 5, 3] = Except.ok gen ∧
      (gen.generate none none).finalShape.getLastD 0 = 3) ∧
    (∃ gen : MobileNetV2Generator, MobileNetV2Generator.init 4 [6, 3] = Except.ok gen ∧
      (gen.generate none none).1.finalShape.getLastD 0 = 4) :=
  ⟨generate_succeeds_with_output_cardinality.1 10 [8, 8, 3] (some 8) (some 16)
      (by decide) (by decide),
   generate_succeeds_with_output_cardinality.2.1 7 5 3 [4] [8, 16, 32] rfl,
   generate_succeeds_with_output_cardinality.2.2.1 2 [5, 5, 3] none none
      (by decide) (by decide),
   generate_succeeds_with_output_cardinality.2.2.2.1 3 [5, 5, 5, 3] none none
      (by decide) (by decide),
   generate_succeeds_with_output_cardinality.2.2.2.2 4 [6, 3] none none
      (by decide) (by decide)⟩

/-- C2 (code bug): rank validation at construction time is absent from the
DenseNet template (its failure on rank 0 or rank 5 comes from the
spec-modelled operator resolver, as `UnsupportedRank`, never as
`InvalidInputRank`) and the MLP template accepts a rank-0 input shape;
the remaining templates do reject rank 0 and rank 5 with
`InvalidInputRank`, as does the MLP template for rank 2. -/
theorem construction_rank_validation_at_failing_inputs :
    MlpGenerator.init 10 [] = Except.ok ⟨10, []⟩ ∧
    DenseNetGenerator.init 10 [] = Except.error GenError.unsupportedRank ∧
    DenseNetGenerator.init 10 [1, 1, 1, 1, 1] = Except.error GenError.unsupportedRank ∧
    GenError.unsupportedRank ≠ GenError.invalidInputRank ∧
    CnnGenerator.init 10 [] = Except.error GenError.invalidInputRank ∧
    CnnGenerator.init 10 [1, 1, 1, 1, 1] = Except.error GenError.invalidInputRank ∧
    ResNetGenerator.init 10 [] = Except.error GenError.invalidInputRank ∧
    ResNetGenerator.init 10 [1, 1, 1, 1, 1] = Except.error GenError.invalidInputRank ∧
    MobileNetV2Generator.init 10 [] = Except.error GenError.invalidInputRank ∧
    MobileNetV2Generator.init 10 [1, 1, 1, 1, 1] =
      Except.error GenError.invalidInputRank ∧
    MlpGenerator.init 10 [1, 1] = Except.error GenError.invalidInputRank :=
  ⟨rfl, rfl, rfl, by decide, rfl, rfl, rfl, rfl, rfl, rfl, rfl⟩

set_option maxRecDepth 8000 in
/-- C3 (counterexample): on a freshly constructed ResNet generator, two
`generate` calls with identical arguments do not produce identical
operator descriptors, because the first call mutates the instance's
`in_planes` counter. -/
theorem resnet_generate_second_call_differs :
    ResNetGenerator.init 1 [1, 1] = Except.ok resnetFresh ∧
    resnetRun1.1.layerList ≠ resnetRun2.1.layerList := by
  refine ⟨rfl, ?_⟩
  decide

set_option maxRecDepth 8000 in
/-- C3 (amended): the Plain-CNN, MLP and DenseNet generators keep no
mutable generation state (their `generate` reads only construction-time
fields), so repeated calls coincide; the ResNet and MobileNetV2 generators
mutate `in_planes` during `generate` (to 512 and 24 respectively after a
default run), so a second call with identical arguments yields a graph
with the same node count but different operator descriptors — with
identical node shapes for ResNet, and different node shapes as well for
MobileNetV2. -/
theorem generate_idempotence_only_stateless_templates :
    (∀ (g : CnnGenerator) (a b : Option Nat), g.generate a b = g.generate a b) ∧
    (∀ (g : MlpGenerator) (a : Option Nat) (b : Option WidthArg),
      g.generate a b = g.generate a b) ∧
    (∀ (g : DenseNetGenerator) (a b : Option Nat), g.generate a b = g.generate a b) ∧
    resnetRun1.1.nodeList = resnetRun2.1.nodeList ∧
    resnetRun1.1.layerList.length = resnetRun2.1.layerList.length ∧
    resnetRun1.1.layerList ≠ resnetRun2.1.layerList ∧
    resnetRun1.2.in_planes = 512 ∧
    mobilenetRun1.1.nodeList.length = mobilenetRun2.1.nodeList.length ∧
    mobilenetRun1.1.layerList.length = mobilenetRun2.1.layerList.length ∧
    mobilenetRun1.1.nodeList ≠ mobilenetRun2.1.nodeList ∧
    mobilenetRun1.1.layerList ≠ mobilenetRun2.1.layerList ∧
    mobilenetRun1.2.in_planes = 24 := by
  refine ⟨fun _ _ _ => rfl, fun _ _ _ => rfl, fun _ _ _ => rfl, by decide, by decide,
    by decide, by decide, by decide, by decide, by decide, by decide, by decide⟩

/-- C4: a MobileNetV2 inverted-residual block built with stride 1 adds no
elementwise-add operator when `in_planes = out_planes`, and adds exactly
one when `in_planes ≠ out_planes`; in the latter case the add is the
block's final layer and its two predecessor nodes (the main branch output
and the projection shortcut built from the block's original input) carry
identical shapes. -/
theorem mobilenet_block_shortcut_add (graph : Graph) (node_id : Nat)
    (dims : List Nat) (c ip op e : Nat)
    (hshape : graph.shapeOf node_id = dims ++ [c])
    (hdims : ∀ d ∈ dims, 1 ≤ d)
    (hid : node_id < graph.nodeList.length) :
    (ip = op →
      (mobilenetMakeBlock graph ip op e node_id 1).1.countAdds = graph.countAdds) ∧
    (¬ ip = op →
      (mobilenetMakeBlock graph ip op e node_id 1).1.countAdds = graph.countAdds + 1 ∧
      ∃ r : LayerRec, ∃ o s : Nat,
        (mobilenetMakeBlock graph ip op e node_id 1).1.lastLayer = some r ∧
        r.layer = StubLayer.add ∧ r.inputIds = [o, s] ∧
        (mobilenetMakeBlock graph ip op e node_id 1).1.shapeOf o =
          (mobilenetMakeBlock graph ip op e node_id 1).1.shapeOf s) := by
  constructor
  · intro heq
    simp only [mobilenetMakeBlock]
    rw [if_neg (show ¬ (True ∧ ¬ ip = op) by simp [heq])]
    exact mobilenetMainChain_countAdds graph ip op e node_id 1
  · intro hne
    simp only [mobilenetMakeBlock]
    rw [if_pos (show True ∧ ¬ ip = op from ⟨trivial, hne⟩)]
    constructor
    · simp [Graph.countAdds_add_layer, mobilenetMainChain_countAdds]
    · set mc := mobilenetMainChain graph ip op e node_id 1 with hmc
      set s := mc.1.add_layer (StubLayer.conv ip op 1 1 0 1) [node_id] with hs
      set t := s.1.add_layer
        (StubLayer.batchNorm ((s.1.shapeOf s.2).getLastD 0)) [s.2] with ht
      refine ⟨⟨StubLayer.add, [mc.2, t.2], t.1.nodeList.length⟩, mc.2, t.2,
        ?_, rfl, rfl, ?_⟩
      · simp [Graph.lastLayer, Graph.add_layer, List.getLast?_concat]
      · have hmb : mc.1.shapeOf mc.2 = dims ++ [op] :=
          mobilenetMainChain_shape graph ip op e node_id dims c hshape hdims
        have hpre : mc.1.shapeOf node_id = dims ++ [c] := by
          rw [nodeGrows_shapeOf (mobilenetMainChain_nodeGrows graph ip op e node_id 1)
            node_id hid, hshape]
        have hmc2lt : mc.2 < mc.1.nodeList.length := by
          rw [hmc, mobilenetMainChain_snd, mobilenetMainChain_length]
          omega
        have hs_shape : s.1.shapeOf s.2 = dims ++ [op] := by
          rw [hs, Graph.shapeOf_add_layer_new]
          simp only [List.map_cons, List.map_nil, outShape]
          rw [hpre]
          simp [List.dropLast_concat, map_spatialOut_k1 dims hdims]
        have ht_shape : t.1.shapeOf t.2 = dims ++ [op] := by
          rw [ht, Graph.shapeOf_add_layer_new]
          simp only [List.map_cons, List.map_nil, outShape]
          exact hs_shape
        have hslen : s.1.nodeList.length = mc.1.nodeList.length + 1 := by
          rw [hs]
          exact Graph.add_layer_length _ _ _
        have htlen : t.1.nodeList.length = s.1.nodeList.length + 1 := by
          rw [ht]
          exact Graph.add_layer_length _ _ _
        have hts : t.2 = s.1.nodeList.length := by
          rw [ht]
          exact Graph.add_layer_snd _ _ _
        have h1 : (t.1.add_layer StubLayer.add [mc.2, t.2]).1.shapeOf mc.2 =
            dims ++ [op] := by
          rw [Graph.shapeOf_add_layer_lt _ _ _ _ (by omega)]
          rw [ht, Graph.shapeOf_add_layer_lt _ _ _ _ (by omega)]
          rw [hs, Graph.shapeOf_add_layer_lt _ _ _ _ hmc2lt]
          exact hmb
        have h2 : (t.1.add_layer StubLayer.add [mc.2, t.2]).1.shapeOf t.2 =
            dims ++ [op] := by
          rw [Graph.shapeOf_add_layer_lt _ _ _ _ (by omega)]
          exact ht_shape
        rw [h1, h2]

/-- Witness for C4: the block evaluated on the input node of a fresh
(4, 4, 3) graph, once with equal channel counts (3 to 3, no add) and once
with differing ones (3 to 24, exactly one add with matching predecessor
shapes). -/
theorem mobilenet_block_shortcut_add_witness :
    ((mobilenetMakeBlock (Graph.init [4, 4, 3]) 3 3 6 0 1).1.countAdds =
      (Graph.init [4, 4, 3]).countAdds) ∧
    ((mobilenetMakeBlock (Graph.init [4, 4, 3]) 3 24 6 0 1).1.countAdds =
      (Graph.init [4, 4, 3]).countAdds + 1 ∧
      ∃ r : LayerRec, ∃ o s : Nat,
        (mobilenetMakeBlock (Graph.init [4, 4, 3]) 3 24 6 0 1).1.lastLayer = some r ∧
        r.layer = StubLayer.add ∧ r.inputIds = [o, s] ∧
        (mobilenetMakeBlock (Graph.init [4, 4, 3]) 3 24 6 0 1).1.shapeOf o =
          (mobilenetMakeBlock (Graph.init [4, 4, 3]) 3 24 6 0 1).1.shapeOf s) := by
  constructor
  · exact (mobilenet_block_shortcut_add (Graph.init [4, 4, 3]) 0 [4, 4] 3 3 3 6 rfl
      (by decide) (by decide)).1 rfl
  · exact (mobilenet_block_shortcut_add (Graph.init [4, 4, 3]) 0 [4, 4] 3 3 24 6 rfl
      (by decide) (by decide)).2 (by decide)

/-- C5: a DenseNet dense block of `n` dense layers applied to a node with
`nf` channels produces a node whose channel count is `nf + n * growth`
(each layer grows the count by `growth` via concatenation with its own
block-local input), and a transition invoked the way `generate` invokes it
(output features `m / 2`) produces a node with `m / 2` channels, integer
floor division. -/
theorem densenet_block_growth_and_transition_halving :
    (∀ (dr : Rat) (graph : Graph) (n nf bs gr id : Nat) (dims : List Nat),
      graph.shapeOf id = dims ++ [nf] → (∀ d ∈ dims, 1 ≤ d) →
      id < graph.nodeList.length →
      ((densenetDenseBlock dr graph n nf bs gr id).1.shapeOf
        (densenetDenseBlock dr graph n nf bs gr id).2).getLastD 0 = nf + n * gr) ∧
    (∀ (graph : Graph) (m id : Nat),
      ((densenetTransition graph m (m / 2) id).1.shapeOf
        (densenetTransition graph m (m / 2) id).2).getLastD 0 = m / 2) := by
  constructor
  · intro dr graph n nf bs gr id dims hshape hdims hid
    rw [(densenetDenseBlock_shape dr graph n nf bs gr id dims nf hshape hdims hid).1]
    simp [List.getLastD_concat]
  · intro graph m id
    exact densenetTransition_channel graph m (m / 2) id

/-- Witness for C5: a six-layer dense block on a 64-channel node of a
fresh (8, 8, 64) graph reaches 64 + 6 * 32 = 256 channels, and a
transition on a 256-feature node halves to 128. -/
theorem densenet_block_growth_and_transition_halving_witness :
    ((densenetDenseBlock 0 (Graph.init [8, 8, 64]) 6 64 4 32 0).1.shapeOf
      (densenetDenseBlock 0 (Graph.init [8, 8, 64]) 6 64 4 32 0).2).getLastD 0 =
        64 + 6 * 32 ∧
    ((densenetTransition (Graph.init [8, 8, 256]) 256 (256 / 2) 0).1.shapeOf
      (densenetTransition (Graph.init [8, 8, 256]) 256 (256 / 2) 0).2).getLastD 0 =
        256 / 2 := by
  constructor
  · exact densenet_block_growth_and_transition_halving.1 0 (Graph.init [8, 8, 64])
      6 64 4 32 0 [8, 8] rfl (by decide) (by decide)
  · exact densenet_block_growth_and_transition_halving.2 (Graph.init [8, 8, 256]) 256 0

/-- C6: after one full ResNet generation with the default width (64) on a
fresh instance, the generator's running channel counter `in_planes` equals
64 * 2 * 2 * 2 = 512, and the final dense layer's declared input size is
that same 512. -/
theorem resnet_in_planes_and_final_dense_512 (n : Nat) (shape : List Nat) (nd : Int) :
    (ResNetGenerator.generate ⟨n, shape, 64, 1, nd⟩ none none).2.in_planes = 512 ∧
    ((ResNetGenerator.generate ⟨n, shape, 64, 1, nd⟩ none none).1.lastLayer).map
      LayerRec.layer = some (StubLayer.dense 512 n) := by
  constructor
  · rfl
  · simp only [ResNetGenerator.generate]
    exact lastLayer_resnetTail n 512 1 _

set_option maxRecDepth 4000 in
/-- C7 (counterexample): in the depth-8, width-16 plain-CNN graph on input
shape (32, 32, 3) with output cardinality 10, the penultimate layer is an
activation, not a dense layer, so the final two layers are not
dense(→16) followed by dense(16→10). -/
theorem cnn_depth8_final_two_layers_counterexample :
    (cnnDepth8.layerList.map LayerRec.layer).reverse.take 2 =
      [StubLayer.dense 16 10, StubLayer.relu] ∧
    StubLayer.relu ≠ StubLayer.dense 16 16 :=
  ⟨by decide, by decide⟩

/-- C7 (amended): the depth-8, width-16 plain-CNN graph on input shape
(32, 32, 3) with output cardinality 10 consists of exactly this operator
sequence: eight activation/normalization/convolution iterations with a
pooling operator after iterations 2, 4 and 6 only (cadence
floor(8/4) = 2, never after the last iteration), then global average
pooling, dropout, and the final three layers dense(16→16), activation,
dense(16→10) — the two dense layers are separated by an activation. -/
theorem cnn_depth8_layer_sequence :
    cnnDepth8.layerList.map LayerRec.layer =
      [StubLayer.relu, StubLayer.batchNorm 3, StubLayer.conv 3 16 3 1 1 1,
       StubLayer.relu, StubLayer.batchNorm 16, StubLayer.conv 16 16 3 1 1 1,
       StubLayer.pooling 2 2 0,
       StubLayer.relu, StubLayer.batchNorm 16, StubLayer.conv 16 16 3 1 1 1,
       StubLayer.relu, StubLayer.batchNorm 16, StubLayer.conv 16 16 3 1 1 1,
       StubLayer.pooling 2 2 0,
       StubLayer.relu, StubLayer.batchNorm 16, StubLayer.conv 16 16 3 1 1 1,
       StubLayer.relu, StubLayer.batchNorm 16, StubLayer.conv 16 16 3 1 1 1,
       StubLayer.pooling 2 2 0,
       StubLayer.relu, StubLayer.batchNorm 16, StubLayer.conv 16 16 3 1 1 1,
       StubLayer.relu, StubLayer.batchNorm 16, StubLayer.conv 16 16 3 1 1 1,
       StubLayer.globalAvgPooling, StubLayer.dropout Constant.CONV_DROPOUT_RATE,
       StubLayer.dense 16 16, StubLayer.relu, StubLayer.dense 16 10] := rfl

/-- C8: the MLP template's generation fails with the width-length
mismatch error for every instance and every explicit width sequence whose
length differs from the requested depth; it succeeds for every matching
sequence on every rank-1 instance (in particular for [8, 16, 32] with
depth 3 and input shape (4,)); and a broadcast integer width never
produces this failure on any instance, succeeding on every rank-1
instance. -/
theorem mlp_width_length_mismatch_behaviour :
    (∀ (g : MlpGenerator) (len : Nat) (ws : List Nat), ws.length ≠ len →
      g.generate (some len) (some (WidthArg.list ws)) =
        Except.error GenError.widthLengthMismatch) ∧
    (∀ (n k len : Nat) (ws : List Nat), ws.length = len →
      ∃ gr : Graph,
        MlpGenerator.generate ⟨n, [k]⟩ (some len) (some (WidthArg.list ws)) =
          Except.ok gr) ∧
    (∃ gr : Graph,
      MlpGenerator.generate ⟨7, [4]⟩ (some 3) (some (WidthArg.list [8, 16, 32])) =
        Except.ok gr) ∧
    (∀ (g : MlpGenerator) (len w : Nat),
      g.generate (some len) (some (WidthArg.int w)) ≠
        Except.error GenError.widthLengthMismatch) ∧
    (∀ (n k len w : Nat),
      ∃ gr : Graph,
        MlpGenerator.generate ⟨n, [k]⟩ (some len) (some (WidthArg.int w)) =
          Except.ok gr) := by
  refine ⟨?_, ?_, ?_, ?_, ?_⟩
  · intro g len ws hne
    simp only [MlpGenerator.generate, Option.getD_some]
    rw [if_pos hne]
  · intro n k len ws hlen
    simp only [MlpGenerator.generate, Option.getD_some]
    rw [if_neg (by omega)]
    exact ⟨_, mlpBuild_cons n k [] ws⟩
  · exact ⟨_, rfl⟩
  · intro g len w
    simp only [MlpGenerator.generate, Option.getD_some]
    exact mlpBuild_never_widthLengthMismatch g _
  · intro n k len w
    exact ⟨_, mlpBuild_cons n k [] _⟩

/-- Witness for C8: the claim's own examples, on the instance with output
cardinality 7 and input shape (4,): width [8, 16] with depth 3 fails with
the mismatch error, width [8, 16, 32] with depth 3 succeeds, and the
broadcast integer width 5 does not produce the mismatch error. -/
theorem mlp_width_length_mismatch_behaviour_witness :
    MlpGenerator.generate ⟨7, [4]⟩ (some 3) (some (WidthArg.list [8, 16])) =
      Except.error GenError.widthLengthMismatch ∧
    (∃ gr : Graph,
      MlpGenerator.generate ⟨7, [4]⟩ (some 3) (some (WidthArg.list [8, 16, 32])) =
        Except.ok gr) ∧
    MlpGenerator.generate ⟨7, [4]⟩ (some 3) (some (WidthArg.int 5)) ≠
      Except.error GenError.widthLengthMismatch :=
  ⟨mlp_width_length_mismatch_behaviour.1 ⟨7, [4]⟩ 3 [8, 16] (by decide),
   mlp_width_length_mismatch_behaviour.2.1 7 4 3 [8, 16, 32] rfl,
   mlp_width_length_mismatch_behaviour.2.2.2.1 ⟨7, [4]⟩ 3 5⟩

/-- C9: in the DenseNet template, for every width argument the
normalization appended immediately after the initial kernel-7 convolution
is parameterized with the fixed initial-feature-width constant 64, while
the convolution itself outputs the width argument, so the two agree only
when the width is 64. -/
theorem densenet_initial_norm_uses_fixed_width
    (n : Nat) (shape : List Nat) (nd : Int) (w : Nat) :
    ((DenseNetGenerator.generate ⟨n, shape, 64, 32, 4, [6, 12, 24, 16], 0, nd⟩
        none (some w)).layerList.getD 1 dummyRec).layer = StubLayer.batchNorm 64 ∧
    ((DenseNetGenerator.generate ⟨n, shape, 64, 32, 4, [6, 12, 24, 16], 0, nd⟩
        none (some w)).layerList.getD 0 dummyRec).layer =
      StubLayer.conv (shape.getLastD 0) w 7 1 3 1 ∧
    (((DenseNetGenerator.generate ⟨n, shape, 64, 32, 4, [6, 12, 24, 16], 0, nd⟩
        none (some w)).layerList.getD 1 dummyRec).layer = StubLayer.batchNorm w ↔
      w = 64) := by
  have hgrow : layerGrows
      (densenetHead ⟨n, shape, 64, 32, 4, [6, 12, 24, 16], 0, nd⟩ w).1
      (DenseNetGenerator.generate ⟨n, shape, 64, 32, 4, [6, 12, 24, 16], 0, nd⟩
        none (some w)) := by
    simp only [DenseNetGenerator.generate, Option.getD_some]
    exact layerGrows_trans (layerGrows_densenetBody _ _) (layerGrows_densenetTail _ _ _)
  have hhead : (densenetHead ⟨n, shape, 64, 32, 4, [6, 12, 24, 16], 0, nd⟩ w).1.layerList =
      [⟨StubLayer.conv (shape.getLastD 0) w 7 1 3 1, [0], 1⟩,
       ⟨StubLayer.batchNorm 64, [1], 2⟩,
       ⟨StubLayer.relu, [2], 3⟩,
       ⟨StubLayer.pooling 3 2 1, [3], 4⟩] := rfl
  have h1 : ((DenseNetGenerator.generate ⟨n, shape, 64, 32, 4, [6, 12, 24, 16], 0, nd⟩
      none (some w)).layerList.getD 1 dummyRec).layer = StubLayer.batchNorm 64 := by
    rw [layerGrows_getD hgrow 1 (by rw [hhead]; simp), hhead]
    rfl
  refine ⟨h1, ?_, ?_⟩
  · rw [layerGrows_getD hgrow 0 (by rw [hhead]; simp), hhead]
    rfl
  · rw [h1]
    constructor
    · intro heq
      cases heq
      rfl
    · intro hw
      rw [hw]

/-- C10: the MobileNetV2 template's generation ignores both its depth and
width arguments entirely; any two calls on the same instance, with any
argument values including omitted ones, produce the same result. -/
theorem mobilenet_generate_ignores_depth_width (g : MobileNetV2Generator)
    (a b a' b' : Option Nat) : g.generate a b = g.generate a' b' := rfl
